import Mathlib

/-!
Verification development for the Multi-Service Network repository
(`src/network_topology.py`, `src/traffic_analyzer.py`,
`src/traffic_generator.py`).  Python dictionaries keyed by strings are
embedded as total functions (`defaultdict`) or as association lists /
`Option`-valued functions (plain dicts); Python operations that can raise
return `Except`.
-/

/-- Python `str.split(sep)` for a single-character separator, acting on the
character list of the string (used for `filename.split('_')` in
`traffic_analyzer.py`). -/
def pySplit (sep : Char) : List Char → List (List Char)
  | [] => [[]]
  | c :: rest =>
    let r := pySplit sep rest
    if c = sep then [] :: r
    else (c :: r.headI) :: r.tail

/-- Capture-point identifier derivation `result['filename'].split('_')[0]`
(`traffic_analyzer.py` lines 130 and 212). -/
def switchName (filename : String) : String :=
  String.mk ((pySplit '_' filename.data).headI)

/-- The record returned by `TrafficAnalyzer.analyze_pcap`
(`traffic_analyzer.py` lines 74-79).  `protocols` holds integer counts
because the derived `Other` bucket may be negative; `hostTraffic` maps an
address to its `(sent, received)` counters in insertion order. -/
structure CaptureRecord where
  filename : String
  totalPackets : ℕ
  protocols : List (String × ℤ)
  hostTraffic : List (String × ℕ × ℕ)
  deriving DecidableEq

/-- Python `str.startswith`, acting on character lists: the first argument
is the candidate leading token, the second the string searched. -/
def pyStartsWith : List Char → List Char → Bool
  | [], _ => true
  | _ :: _, [] => false
  | p :: ps, c :: cs => p = c && pyStartsWith ps cs

/-- Address filter of `analyze_pcap` (`traffic_analyzer.py` line 69):
`ip.startswith('10.0.')`. -/
def inAddressSpace (ip : String) : Bool :=
  pyStartsWith "10.0.".data ip.data

/-- One `host_traffic[ip]['sent'] = count` update on the address map
(`traffic_analyzer.py` line 70): the `defaultdict` creates the entry with
both counters zero when absent, then overwrites `sent`. -/
def setSent : List (String × ℕ × ℕ) → String → ℕ → List (String × ℕ × ℕ)
  | [], ip, c => [(ip, c, 0)]
  | (k, s, r) :: rest, ip, c =>
    if k = ip then (k, c, r) :: rest
    else (k, s, r) :: setSent rest ip c

/-- The source-address attribution loop of `analyze_pcap`
(`traffic_analyzer.py` lines 57-72): each parsed `(count, ip)` observation
is attributed only when the address starts with `10.0.`; every other
address is skipped without error. -/
def hostTrafficOf (obs : List (ℕ × String)) : List (String × ℕ × ℕ) :=
  obs.foldl (fun acc o => if inAddressSpace o.2 then setSent acc o.2 o.1 else acc) []

/-- Protocol map built by `analyze_pcap` (`traffic_analyzer.py` lines
36-54): TCP, UDP and ICMP counts are measured independently and
`Other = total_packets - (TCP + UDP + ICMP)` is a plain (possibly
negative) integer difference. -/
def analyzeProtocols (totalPackets tcp udp icmp : ℕ) : List (String × ℤ) :=
  [("TCP", (tcp : ℤ)), ("UDP", (udp : ℤ)), ("ICMP", (icmp : ℤ)),
   ("Other", (totalPackets : ℤ) - ((tcp : ℤ) + (udp : ℤ) + (icmp : ℤ)))]

/-- `TrafficAnalyzer.analyze_pcap` (`traffic_analyzer.py` lines 26-79),
with the measured quantities as inputs: the total frame count, the three
protocol counts, and the parsed `(count, source-ip)` observations. -/
def analyzePcap (filename : String) (totalPackets tcp udp icmp : ℕ)
    (obs : List (ℕ × String)) : CaptureRecord :=
  { filename := filename
    totalPackets := totalPackets
    protocols := analyzeProtocols totalPackets tcp udp icmp
    hostTraffic := hostTrafficOf obs }

/-- One `total_protocols[protocol] += count` update (`traffic_analyzer.py`
line 108) on the `defaultdict(int)` embedded as a total function. -/
def addProtocolCount (f : String → ℤ) (pc : String × ℤ) : String → ℤ :=
  fun q => if q = pc.1 then f q + pc.2 else f q

/-- Aggregation loop of `TrafficAnalyzer.generate_protocol_chart`
(`traffic_analyzer.py` lines 104-108): global per-protocol totals. -/
def protocolTotals (results : List CaptureRecord) : String → ℤ :=
  results.foldl (fun f r => r.protocols.foldl addProtocolCount f) (fun _ => 0)

/-- Aggregation loop of `TrafficAnalyzer.generate_traffic_by_switch`
(`traffic_analyzer.py` lines 126-131): the per-capture-point map is built
with plain dict assignment `switch_data[switch_name] = result['total_packets']`,
so a later record with the same capture point overwrites an earlier one. -/
def switchTotals (results : List CaptureRecord) : String → Option ℕ :=
  results.foldl
    (fun f r => fun q => if q = switchName r.filename then some r.totalPackets else f q)
    (fun _ => none)

/-- One `host_data[host]['sent'] += traffic['sent']` and
`host_data[host]['received'] += traffic['received']` update
(`traffic_analyzer.py` lines 160-161). -/
def addHostCount (f : String → ℕ × ℕ) (ht : String × ℕ × ℕ) : String → ℕ × ℕ :=
  fun q => if q = ht.1 then ((f q).1 + ht.2.1, (f q).2 + ht.2.2) else f q

/-- Aggregation loop of `TrafficAnalyzer.generate_host_traffic_matrix`
(`traffic_analyzer.py` lines 156-161): per-address sent/received totals. -/
def hostTotals (results : List CaptureRecord) : String → ℕ × ℕ :=
  results.foldl (fun f r => r.hostTraffic.foldl addHostCount f) (fun _ => (0, 0))

/-- Percentage computed by `TrafficAnalyzer.generate_report`
(`traffic_analyzer.py` line 217):
`(count / total * 100) if total > 0 else 0`, with the exact rational value
in place of the Python float. -/
def percentage (count : ℤ) (totalPackets : ℕ) : ℚ :=
  if 0 < totalPackets then (count : ℚ) / (totalPackets : ℚ) * 100 else 0

/-- Data written for one protocol line of the report
(`traffic_analyzer.py` line 218): the protocol name, its count and the
derived percentage; nothing else appears on the line. -/
def protocolEntry (protocol : String) (count : ℤ) (totalPackets : ℕ) :
    String × ℤ × ℚ :=
  (protocol, count, percentage count totalPackets)

/-- Python runtime errors relevant to this development. -/
inductive PyError where
  | zeroDivision
  deriving DecidableEq

/-- Python division `a / b`, which raises `ZeroDivisionError` when `b = 0`. -/
def pythonDiv (a b : ℚ) : Except PyError ℚ :=
  if b = 0 then Except.error PyError.zeroDivision else Except.ok (a / b)

/-- Tick counter of the `generate_iot_traffic` loop (`traffic_generator.py`
lines 107-120), with the drawn inter-tick intervals injected as a finite
list (the random tape) and the shared stop event as a flag: a tick is
emitted while the elapsed time is below `duration` and the stop event is
unset.  Payload sizes do not affect the count. -/
def iotTicks (duration : ℚ) (stopped : Bool) : ℚ → List ℚ → ℕ
  | _, [] => 0
  | elapsed, i :: rest =>
    if elapsed < duration ∧ stopped = false then iotTicks duration stopped (elapsed + i) rest + 1
    else 0

/-- Termination report of `generate_iot_traffic` (`traffic_generator.py`
line 123): `Average interval: {duration/packet_count:.2f}` is computed
with Python division and no guard on `packet_count`. -/
def iotAverageInterval (duration : ℚ) (stopped : Bool) (intervals : List ℚ) :
    Except PyError ℚ :=
  pythonDiv duration ((iotTicks duration stopped 0 intervals : ℕ) : ℚ)

/-- One leaf class
`tc class add ... rate {floorRate}mbit ceil {ceilRate}mbit prio {prio}`
(`network_topology.py` lines 105, 114 and 123). -/
structure QosLeaf where
  floorRate : ℕ
  ceilRate : ℕ
  prio : ℕ
  deriving DecidableEq

/-- Shaping tree installed on one host interface by `apply_qos_policies`:
a root HTB class `rate {rootRate}mbit` (an HTB ceiling defaults to the
rate) with a single service leaf below it. -/
structure HostShaping where
  rootRate : ℕ
  leaf : QosLeaf
  deriving DecidableEq

/-- `MultiServiceNetwork.apply_qos_policies` (`network_topology.py` lines
93-123): the hardcoded per-host shaping configuration — web hosts h1, h2
at root rate 100 with leaf 80/100 prio 1, video hosts h3, h4 at root 1000
with leaf 800/1000 prio 2, IoT hosts h5, h6 at root 100 with leaf 50/100
prio 3.  The commands are emitted unconditionally: the function has no
admission check and no error path. -/
def applyQosPolicies : List (String × HostShaping) :=
  [("h1", ⟨100, ⟨80, 100, 1⟩⟩), ("h2", ⟨100, ⟨80, 100, 1⟩⟩),
   ("h3", ⟨1000, ⟨800, 1000, 2⟩⟩), ("h4", ⟨1000, ⟨800, 1000, 2⟩⟩),
   ("h5", ⟨100, ⟨50, 100, 3⟩⟩), ("h6", ⟨100, ⟨50, 100, 3⟩⟩)]

/-- Outbound link capacity (`bw`, Mbit) of each host link created by
`MultiServiceNetwork.create_topology` (`network_topology.py` lines
59-74). -/
def hostLinkBw : List (String × ℕ) :=
  [("h1", 100), ("h2", 100), ("h3", 1000), ("h4", 1000),
   ("h5", 100), ("h6", 100)]

/-- Per-record contribution of one capture record to the global protocol
total at one key. -/
def protoDelta (r : CaptureRecord) (q : String) : ℤ :=
  (r.protocols.map (fun pc => if q = pc.1 then pc.2 else 0)).sum

/-- Per-record contribution of one capture record to the per-address
totals at one key. -/
def hostDelta (r : CaptureRecord) (q : String) : ℕ × ℕ :=
  (r.hostTraffic.map (fun ht => if q = ht.1 then ht.2 else (0, 0))).sum

/-- A capture record for capture point `s1`, ten frames total. -/
def recA : CaptureRecord := analyzePcap "s1_20250605.pcap" 10 4 3 2 [(7, "10.0.0.1")]

/-- A second capture record for the same capture point `s1`, twenty frames
total. -/
def recB : CaptureRecord := analyzePcap "s1_20250606.pcap" 20 5 5 5 [(2, "10.0.0.2")]

lemma addHostCount_eq_add (f : String → ℕ × ℕ) (ht : String × ℕ × ℕ) (q : String) :
    addHostCount f ht q = f q + (if q = ht.1 then ht.2 else (0, 0)) := by
  unfold addHostCount
  by_cases h : q = ht.1 <;> simp [h, Prod.ext_iff]

lemma foldl_addProtocolCount_apply (items : List (String × ℤ)) (f : String → ℤ)
    (q : String) :
    items.foldl addProtocolCount f q
      = f q + (items.map (fun pc => if q = pc.1 then pc.2 else 0)).sum := by
  induction items generalizing f with
  | nil => simp
  | cons pc rest ih =>
    simp only [List.foldl_cons, List.map_cons, List.sum_cons, ih]
    unfold addProtocolCount
    rcases eq_or_ne q pc.1 with h | h
    · subst h
      simp only [if_true, eq_self_iff_true]
      ring
    · simp [h]

lemma foldl_addHostCount_apply (items : List (String × ℕ × ℕ)) (f : String → ℕ × ℕ)
    (q : String) :
    items.foldl addHostCount f q
      = f q + (items.map (fun ht => if q = ht.1 then ht.2 else (0, 0))).sum := by
  induction items generalizing f with
  | nil => simp
  | cons ht rest ih =>
    simp only [List.foldl_cons, List.map_cons, List.sum_cons, ih, addHostCount_eq_add]
    rw [add_assoc]

lemma protocolTotals_foldl (results : List CaptureRecord) (f : String → ℤ) (q : String) :
    results.foldl (fun g r => r.protocols.foldl addProtocolCount g) f q
      = f q + (results.map (fun r => protoDelta r q)).sum := by
  induction results generalizing f with
  | nil => simp
  | cons r rest ih =>
    simp only [List.foldl_cons, List.map_cons, List.sum_cons, ih,
      foldl_addProtocolCount_apply, protoDelta]
    ring

lemma hostTotals_foldl (results : List CaptureRecord) (f : String → ℕ × ℕ) (q : String) :
    results.foldl (fun g r => r.hostTraffic.foldl addHostCount g) f q
      = f q + (results.map (fun r => hostDelta r q)).sum := by
  induction results generalizing f with
  | nil => simp
  | cons r rest ih =>
    simp only [List.foldl_cons, List.map_cons, List.sum_cons, ih,
      foldl_addHostCount_apply, hostDelta]
    rw [add_assoc]

/-- The global protocol totals are the pointwise sum of per-record
contributions. -/
lemma protocolTotals_apply (results : List CaptureRecord) (q : String) :
    protocolTotals results q = (results.map (fun r => protoDelta r q)).sum := by
  unfold protocolTotals
  rw [protocolTotals_foldl]
  simp

/-- The per-address totals are the pointwise sum of per-record
contributions. -/
lemma hostTotals_apply (results : List CaptureRecord) (q : String) :
    hostTotals results q = (results.map (fun r => hostDelta r q)).sum := by
  unfold hostTotals
  rw [hostTotals_foldl]
  simp

/-- C1 counterexample: aggregation is not order-independent for the
per-capture-point totals.  The records `recA` and `recB` come from the
same capture point `s1`; `generate_traffic_by_switch` stores each total
with plain dict assignment, so swapping the two records — a permutation —
changes the aggregated per-capture-point total for `s1` from 20 to 10. -/
theorem C1_counterexample :
    [recA, recB].Perm [recB, recA] ∧
    switchTotals [recA, recB] "s1" ≠ switchTotals [recB, recA] "s1" :=
  ⟨List.Perm.swap recB recA [], by decide⟩

/-- C1 (amended): aggregation is order-independent for the global protocol
totals (`generate_protocol_chart`) and the per-address totals
(`generate_host_traffic_matrix`), which are accumulated with `+=`; the
per-capture-point totals (`generate_traffic_by_switch`) are built with
last-write-wins dict assignment and are therefore order-dependent whenever
two records share a capture point. -/
theorem C1_amended_order_independence (rs rsPerm : List CaptureRecord)
    (h : rs.Perm rsPerm) :
    protocolTotals rs = protocolTotals rsPerm ∧ hostTotals rs = hostTotals rsPerm := by
  constructor <;> funext q
  · rw [protocolTotals_apply, protocolTotals_apply]
    exact (h.map (fun r => protoDelta r q)).sum_eq
  · rw [hostTotals_apply, hostTotals_apply]
    exact (h.map (fun r => hostDelta r q)).sum_eq

/-- Witness for the amended C1 theorem at a concrete two-record
permutation. -/
theorem C1_amended_order_independence_witness :
    protocolTotals [recA, recB] = protocolTotals [recB, recA] ∧
    hostTotals [recA, recB] = hostTotals [recB, recA] :=
  C1_amended_order_independence [recA, recB] [recB, recA] (List.Perm.swap recB recA [])

/-- C2 counterexample: with protocol counts TCP 50, UDP 30, ICMP 5 and
total frame count 80 (the spec's InconsistentCounts test vector),
`analyze_pcap` does not fail — it silently stores the negative bucket
`Other = 80 - 85 = -5` in the produced record. -/
theorem C2_counterexample :
    List.lookup "Other" (analyzePcap "s1_t.pcap" 80 50 30 5 []).protocols
      = some (-5) := by
  decide

/-- C2 (amended): the derived `Other` bucket is `total - (TCP + UDP + ICMP)`
as a plain integer difference.  When the protocol-specific counts sum to at
most the total frame count it is the nonnegative remainder; when they
exceed the total, ingestion does not fail — no InconsistentCounts error
exists — and the negative difference is stored silently. -/
theorem C2_amended_other_bucket (fn : String) (obs : List (ℕ × String))
    (totalPackets tcp udp icmp : ℕ) (h : tcp + udp + icmp ≤ totalPackets) :
    List.lookup "Other" (analyzePcap fn totalPackets tcp udp icmp obs).protocols
      = some ((totalPackets : ℤ) - ((tcp : ℤ) + (udp : ℤ) + (icmp : ℤ))) ∧
    0 ≤ (totalPackets : ℤ) - ((tcp : ℤ) + (udp : ℤ) + (icmp : ℤ)) := by
  constructor
  · simp [analyzePcap, analyzeProtocols, List.lookup]
  · omega

/-- Witness for the amended C2 theorem at the spec's round-trip test
vector: TCP 50, UDP 30, ICMP 5, total 100 yields `Other = 15`. -/
theorem C2_amended_other_bucket_witness :
    List.lookup "Other" (analyzePcap "s1_t.pcap" 100 50 30 5 []).protocols
      = some (((100 : ℕ) : ℤ) - (((50 : ℕ) : ℤ) + ((30 : ℕ) : ℤ) + ((5 : ℕ) : ℤ))) ∧
    0 ≤ (((100 : ℕ) : ℤ) - (((50 : ℕ) : ℤ) + ((30 : ℕ) : ℤ) + ((5 : ℕ) : ℤ))) :=
  C2_amended_other_bucket "s1_t.pcap" [] 100 50 30 5 (by decide)

/-- C4 counterexample: the report line produced for a protocol of a
zero-total capture carries exactly the same data as the line for a genuine
zero-percent protocol of a nonempty capture — the code emits no
no-base-for-percentage flag, so the two cases are indistinguishable. -/
theorem C4_counterexample :
    protocolEntry "TCP" 0 0 = protocolEntry "TCP" 0 10 := by
  norm_num [protocolEntry, percentage]

/-- C4 (amended): percentage derivation never divides by zero — when the
total frame count is positive the reported percentage is exactly
`count / total * 100` (an exact rational, so no NaN or infinity can
arise), and when the total is zero the reported percentage is `0`; no
no-base flag is emitted, so the zero-total case is indistinguishable from
a genuine zero percent. -/
theorem C4_amended_percentage (count : ℤ) (totalPackets : ℕ)
    (h : 0 < totalPackets) :
    percentage count totalPackets = (count : ℚ) / (totalPackets : ℚ) * 100 ∧
    percentage count 0 = 0 := by
  constructor
  · simp [percentage, h]
  · simp [percentage]

/-- Witness for the amended C4 theorem at count 50 of total 100. -/
theorem C4_amended_percentage_witness :
    percentage 50 100 = ((50 : ℤ) : ℚ) / (((100 : ℕ)) : ℚ) * 100 ∧
    percentage 50 0 = 0 :=
  C4_amended_percentage 50 100 (by decide)

/-- C9: every record produced by `analyze_pcap` has exactly the four
protocol buckets TCP, UDP, ICMP, Other in that order, and their values sum
to the record's total frame count (Other is defined as total minus the
other three), so the protocol distribution always partitions the total. -/
theorem C9_protocol_partition (fn : String) (totalPackets tcp udp icmp : ℕ)
    (obs : List (ℕ × String)) :
    ((analyzePcap fn totalPackets tcp udp icmp obs).protocols.map Prod.fst
        = ["TCP", "UDP", "ICMP", "Other"]) ∧
    (((analyzePcap fn totalPackets tcp udp icmp obs).protocols.map Prod.snd).sum
        = (totalPackets : ℤ)) := by
  refine ⟨rfl, ?_⟩
  simp [analyzePcap, analyzeProtocols]
  ring

lemma pySplit_no_sep (sep : Char) (l : List Char) (h : sep ∉ l) :
    pySplit sep l = [l] := by
  induction l with
  | nil => rfl
  | cons c rest ih =>
    simp only [List.mem_cons, not_or] at h
    have hc : ¬ c = sep := fun hcs => h.1 hcs.symm
    simp [pySplit, hc, ih h.2]

lemma pySplit_first_sep (sep : Char) (a b : List Char) (h : sep ∉ a) :
    pySplit sep (a ++ sep :: b) = a :: pySplit sep b := by
  induction a with
  | nil => simp [pySplit]
  | cons c rest ih =>
    simp only [List.mem_cons, not_or] at h
    have hc : ¬ c = sep := fun hcs => h.1 hcs.symm
    simp [pySplit, hc, ih h.2]

/-- C5 counterexample: a capture filename with no underscore is not
rejected — `split('_')[0]` returns the whole filename and
`generate_traffic_by_switch` happily groups the record under it. -/
theorem C5_counterexample :
    switchName "s1.pcap" = "s1.pcap" ∧
    switchTotals [analyzePcap "s1.pcap" 7 3 2 1 []] "s1.pcap" = some 7 := by
  constructor <;> decide

/-- C5 (amended): for a filename containing an underscore the capture
point identifier is the token preceding the first underscore; a filename
containing no underscore is not rejected — the whole filename itself is
used as the capture point identifier for grouping. -/
theorem C5_amended_capture_point :
    (∀ a b : List Char, '_' ∉ a →
      switchName (String.mk (a ++ '_' :: b)) = String.mk a) ∧
    (∀ f : List Char, '_' ∉ f → switchName (String.mk f) = String.mk f) := by
  constructor
  · intro a b h
    simp [switchName, pySplit_first_sep '_' a b h]
  · intro f h
    simp [switchName, pySplit_no_sep '_' f h]

/-- Witness for the amended C5 theorem: `s1_20250605.pcap` groups under
`s1`, and the underscore-free `s1.pcap` groups under itself. -/
theorem C5_amended_capture_point_witness :
    switchName (String.mk ("s1".data ++ '_' :: "20250605.pcap".data))
      = String.mk "s1".data ∧
    switchName (String.mk "s1.pcap".data) = String.mk "s1.pcap".data :=
  ⟨C5_amended_capture_point.1 "s1".data "20250605.pcap".data (by decide),
   C5_amended_capture_point.2 "s1.pcap".data (by decide)⟩

/-- C6: the claim is right and the code is wrong.  `generate_iot_traffic`
writes `Average interval: {duration/packet_count:.2f}` at termination with
no guard, so a run that emitted zero ticks — here the shared stop event is
already set when the loop is first entered, with a 60-second duration and
intervals 2 and 3 on the random tape — raises ZeroDivisionError instead of
reporting an average interval. -/
theorem C6_division_by_zero :
    iotTicks 60 true 0 [2, 3] = 0 ∧
    iotAverageInterval 60 true [2, 3] = Except.error PyError.zeroDivision :=
  ⟨rfl, rfl⟩

/-- C7: for every host in the hardcoded shaping configuration whose leaf
floor is within the root ceiling (true of all six hosts), the emitted
shaping tree has its leaf ceiling at most the root ceiling — ceilings are
non-increasing from root to leaf — and the root ceiling equals the
capacity of the host's outbound link from `create_topology`.  The build
itself always succeeds: `apply_qos_policies` has no failure path. -/
theorem C7_ceilings_monotone (h : String) (t : HostShaping)
    (hmem : (h, t) ∈ applyQosPolicies)
    (hfloor : t.leaf.floorRate ≤ t.rootRate) :
    t.leaf.ceilRate ≤ t.rootRate ∧ List.lookup h hostLinkBw = some t.rootRate := by
  fin_cases hmem <;> exact ⟨by decide, by decide⟩

/-- Witness for C7 at host h1: leaf ceiling 100 is at most the root
ceiling 100, which equals the 100 Mbit capacity of h1's link. -/
theorem C7_ceilings_monotone_witness :
    (⟨100, ⟨80, 100, 1⟩⟩ : HostShaping).leaf.ceilRate
        ≤ (⟨100, ⟨80, 100, 1⟩⟩ : HostShaping).rootRate ∧
    List.lookup "h1" hostLinkBw = some (⟨100, ⟨80, 100, 1⟩⟩ : HostShaping).rootRate :=
  C7_ceilings_monotone "h1" ⟨100, ⟨80, 100, 1⟩⟩ (by decide) (by decide)

lemma lookup_setSent_ne (l : List (String × ℕ × ℕ)) (ip q : String) (c : ℕ)
    (h : q ≠ ip) :
    List.lookup q (setSent l ip c) = List.lookup q l := by
  have hbe : (q == ip) = false := beq_eq_false_iff_ne.mpr h
  induction l with
  | nil => simp [setSent, List.lookup, hbe]
  | cons kv rest ih =>
    obtain ⟨k, s, r⟩ := kv
    by_cases hk : k = ip
    · subst hk
      simp [setSent, List.lookup, hbe]
    · cases hqk : q == k with
      | true => simp [setSent, if_neg hk, List.lookup, hqk]
      | false => simp [setSent, if_neg hk, List.lookup, hqk, ih]

lemma lookup_hostTrafficFold (obs : List (ℕ × String))
    (acc : List (String × ℕ × ℕ)) (ip : String)
    (h : inAddressSpace ip = false) (hacc : List.lookup ip acc = none) :
    List.lookup ip
      (obs.foldl (fun a o => if inAddressSpace o.2 then setSent a o.2 o.1 else a) acc)
      = none := by
  induction obs generalizing acc with
  | nil => simpa using hacc
  | cons o rest ih =>
    simp only [List.foldl_cons]
    apply ih
    cases ho : inAddressSpace o.2 with
    | true =>
      simp only [ho, if_true]
      rw [lookup_setSent_ne]
      · exact hacc
      · intro he
        rw [he, ho] at h
        exact absurd h (by decide)
    | false =>
      simpa only [ho, if_false] using hacc

/-- C8: capture ingestion attributes per-address traffic only for
addresses inside the emulated network's address space (the `10.0.` space
tested by `ip.startswith('10.0.')`): an address outside it is silently
skipped — it is absent from the produced record's address map — and the
ingestion never errors (the embedded function is total). -/
theorem C8_outside_addresses_ignored (fn : String)
    (totalPackets tcp udp icmp : ℕ) (obs : List (ℕ × String)) (ip : String)
    (h : inAddressSpace ip = false) :
    List.lookup ip (analyzePcap fn totalPackets tcp udp icmp obs).hostTraffic
      = none := by
  simp only [analyzePcap, hostTrafficOf]
  exact lookup_hostTrafficFold obs [] ip h rfl

/-- Witness for C8: the outside address `192.168.1.1`, observed with count
3, is absent from the record while the inside address is attributed. -/
theorem C8_outside_addresses_ignored_witness :
    List.lookup "192.168.1.1"
      (analyzePcap "s2_t.pcap" 5 1 1 1
        [(3, "192.168.1.1"), (2, "10.0.0.3")]).hostTraffic = none :=
  C8_outside_addresses_ignored "s2_t.pcap" 5 1 1 1
    [(3, "192.168.1.1"), (2, "10.0.0.3")] "192.168.1.1" (by decide)

lemma setSent_received_zero (l : List (String × ℕ × ℕ)) (ip : String) (c : ℕ)
    (h : ∀ e ∈ l, e.2.2 = 0) :
    ∀ e ∈ setSent l ip c, e.2.2 = 0 := by
  induction l with
  | nil =>
    intro e he
    simp only [setSent, List.mem_singleton] at he
    simp [he]
  | cons kv rest ih =>
    obtain ⟨k, s, r⟩ := kv
    intro e he
    by_cases hk : k = ip
    · subst hk
      simp only [setSent, if_pos rfl, if_true, eq_self_iff_true, List.mem_cons] at he
      rcases he with he | he
      · have hr : r = 0 := h (k, s, r) (by simp)
        simp [he, hr]
      · exact h e (List.mem_cons_of_mem _ he)
    · simp only [setSent, if_neg hk, List.mem_cons] at he
      rcases he with he | he
      · exact h e (by simp [he])
      · exact ih (fun x hx => h x (List.mem_cons_of_mem _ hx)) e he

lemma hostTrafficOf_received_zero (obs : List (ℕ × String)) :
    ∀ e ∈ hostTrafficOf obs, e.2.2 = 0 := by
  unfold hostTrafficOf
  suffices hgen : ∀ acc, (∀ e ∈ acc, e.2.2 = 0) →
      ∀ e ∈ obs.foldl
        (fun a o => if inAddressSpace o.2 then setSent a o.2 o.1 else a) acc,
        e.2.2 = 0 from hgen [] (by simp)
  induction obs with
  | nil => intro acc hacc; simpa using hacc
  | cons o rest ih =>
    intro acc hacc
    simp only [List.foldl_cons]
    apply ih
    cases ho : inAddressSpace o.2 with
    | true =>
      simp only [ho, if_true]
      exact setSent_received_zero acc o.2 o.1 hacc
    | false =>
      simpa only [ho, if_false] using hacc

lemma sum_snd_eq_zero (l : List (ℕ × ℕ)) (h : ∀ x ∈ l, x.2 = 0) :
    l.sum.2 = 0 := by
  induction l with
  | nil => simp
  | cons x rest ih =>
    simp only [List.sum_cons, Prod.snd_add]
    rw [h x (by simp), ih (fun y hy => h y (List.mem_cons_of_mem _ hy))]

lemma hostDelta_received_zero (r : CaptureRecord) (q : String)
    (h : ∀ e ∈ r.hostTraffic, e.2.2 = 0) : (hostDelta r q).2 = 0 := by
  unfold hostDelta
  apply sum_snd_eq_zero
  intro x hx
  simp only [List.mem_map] at hx
  obtain ⟨ht, hht, hx⟩ := hx
  subst hx
  by_cases hq : q = ht.1
  · simp [hq, h ht hht]
  · simp [hq]

/-- C10: the per-address received counter of every address in a record
produced by `analyze_pcap` is zero (only `sent` is ever written from the
parsed source addresses), and consequently the received component of every
aggregated per-address total over such records is zero as well. -/
theorem C10_received_always_zero :
    (∀ (fn : String) (totalPackets tcp udp icmp : ℕ) (obs : List (ℕ × String)),
       ∀ e ∈ (analyzePcap fn totalPackets tcp udp icmp obs).hostTraffic,
         e.2.2 = 0) ∧
    (∀ rs : List CaptureRecord,
       (∀ r ∈ rs, ∀ e ∈ r.hostTraffic, e.2.2 = 0) →
       ∀ q : String, (hostTotals rs q).2 = 0) := by
  constructor
  · intro fn totalPackets tcp udp icmp obs e he
    exact hostTrafficOf_received_zero obs e he
  · intro rs hrs q
    rw [hostTotals_apply]
    apply sum_snd_eq_zero
    intro x hx
    simp only [List.mem_map] at hx
    obtain ⟨r, hr, hx⟩ := hx
    subst hx
    exact hostDelta_received_zero r q (hrs r hr)

/-- Witness for C10 on a record with one attributed address. -/
theorem C10_received_always_zero_witness :
    ((("10.0.0.1", 7, 0) : String × ℕ × ℕ).2.2 = 0) ∧
    (hostTotals [analyzePcap "s3_t.pcap" 9 2 2 2 [(7, "10.0.0.1")]] "10.0.0.1").2
      = 0 :=
  ⟨C10_received_always_zero.1 "s3_t.pcap" 9 2 2 2 [(7, "10.0.0.1")]
      ("10.0.0.1", 7, 0) (by decide),
   C10_received_always_zero.2 [analyzePcap "s3_t.pcap" 9 2 2 2 [(7, "10.0.0.1")]]
      (by decide) "10.0.0.1"⟩
